import Mathlib

/-
Verification of the temporary-files-and-directories example
(examples/temporary-files-and-directories/temporary-files-and-directories.go).

The program is a linear script over OS primitives.  We embed it as a
deterministic interpreter over an explicit filesystem state, parameterised
by a failure oracle that decides, for each fallible OS call, whether it
returns a non-nil error.  Go's `defer` statements are modelled by an
explicit defer stack (pushed at registration, executed in LIFO order on
every exit, normal return and panic alike; `defer` arguments are evaluated
at registration time, as in Go).

The OS primitives (os.CreateTemp, os.MkdirTemp, os.WriteFile, os.Remove,
os.RemoveAll, File.Write, File.Close, filepath.Join) are not part of the
repository; they are modelled from their documented behaviour, which the
spec restates: temp-name creation draws a fresh identifier from an atomic
OS-wide counter (guaranteeing uniqueness of generated names), prefixed by
the caller-supplied name component, under the default location /tmp.
-/

namespace TempFiles

/-- Filesystem paths: an entry directly under the default temporary
location `/tmp` whose base name is a caller-supplied component followed by
an OS-generated fresh identifier, or an entry inside a directory
(`filepath.Join dir name`). -/
inductive GoPath where
  | tmpEntry (pre : String) (id : Nat)
  | sub (dir : GoPath) (name : String)
deriving DecidableEq, Repr

/-- Render a path as the string the program would print. -/
def render : GoPath → String
  | .tmpEntry pre id => "/tmp/" ++ pre ++ Nat.repr id
  | .sub d n => render d ++ "/" ++ n

/-- The final path component. -/
def baseName : GoPath → String
  | .tmpEntry pre id => pre ++ Nat.repr id
  | .sub _ n => n

/-- Does this path live directly in the default temporary location? -/
def isTopTmp : GoPath → Bool
  | .tmpEntry _ _ => true
  | .sub _ _ => false

/-- `isUnder p q`: `q` is `p` itself or a descendant of `p`. -/
def isUnder (p : GoPath) : GoPath → Bool
  | .tmpEntry pre id => p == GoPath.tmpEntry pre id
  | .sub d n => p == GoPath.sub d n || isUnder p d

/-- `s` starts with `p` (the spec's "base name starts with the prefix"). -/
def strStartsWith (p s : String) : Prop := ∃ r, s = p ++ r

/-- Filesystem state: the OS fresh-name counter, the regular files with
their byte contents, the directories, and the open file handles. -/
structure FS where
  nextId : Nat
  files : List (GoPath × List Nat)
  dirs : List GoPath
  openHandles : List GoPath
deriving DecidableEq, Repr

/-- The empty filesystem the run starts from. -/
def initFS : FS := ⟨0, [], [], []⟩

/-- Content of the regular file at `p`, if it exists. -/
def lookupFile (p : GoPath) (fs : FS) : Option (List Nat) :=
  (fs.files.find? (fun e => e.1 == p)).map (fun e => e.2)

/-- Modelled from the spec: `os.CreateTemp("", pre)` (success case).
Creates, in the default temporary location, an empty file whose base name
is `pre` followed by a fresh OS-generated identifier, and opens a writable
handle on it; returns the resolved path. -/
def osCreateTemp (pre : String) (fs : FS) : GoPath × FS :=
  let p := GoPath.tmpEntry pre fs.nextId
  (p, { fs with
          nextId := fs.nextId + 1
          files := (p, []) :: fs.files
          openHandles := p :: fs.openHandles })

/-- Modelled from the spec: `os.MkdirTemp("", pre)` (success case).
Creates, in the default temporary location, a directory whose base name is
`pre` followed by a fresh OS-generated identifier; returns its path. -/
def osMkdirTemp (pre : String) (fs : FS) : GoPath × FS :=
  let p := GoPath.tmpEntry pre fs.nextId
  (p, { fs with
          nextId := fs.nextId + 1
          dirs := p :: fs.dirs })

/-- Modelled from the spec: `File.Write` (success case) appends the bytes
to the file underlying the handle. -/
def fsWrite (p : GoPath) (bytes : List Nat) (fs : FS) : FS :=
  { fs with
      files := fs.files.map (fun e => if e.1 == p then (e.1, e.2 ++ bytes) else e) }

/-- Modelled from the spec: `os.WriteFile` (success case) creates or
truncates the file at `p` so that it holds exactly `bytes`. -/
def osWriteFile (p : GoPath) (bytes : List Nat) (fs : FS) : FS :=
  { fs with files := (p, bytes) :: fs.files.filter (fun e => e.1 != p) }

/-- Modelled from the spec: `File.Close` releases the handle. -/
def osClose (p : GoPath) (fs : FS) : FS :=
  { fs with openHandles := fs.openHandles.filter (fun q => q != p) }

/-- Modelled from the spec: `os.Remove` deletes the single entry at `p`. -/
def osRemove (p : GoPath) (fs : FS) : FS :=
  { fs with files := fs.files.filter (fun e => e.1 != p) }

/-- Modelled from the spec: `os.RemoveAll` deletes `p` and everything
under it. -/
def osRemoveAll (p : GoPath) (fs : FS) : FS :=
  { fs with
      files := fs.files.filter (fun e => !(isUnder p e.1))
      dirs := fs.dirs.filter (fun q => !(isUnder p q)) }

/-- Modelled from the spec: `filepath.Join dir name`. -/
def filepathJoin (d : GoPath) (n : String) : GoPath := GoPath.sub d n

/-- The program's `check` helper: a non-nil error panics with that error
as the diagnostic, a nil error lets execution continue. -/
def check (e : Option String) : Except String Unit :=
  match e with
  | some err => Except.error err
  | none => Except.ok ()

/-- Observable OS calls the run performs, in execution order. -/
inductive Action where
  | callCreateTemp (pre : String)
  | callPrintln (line : String)
  | callWrite (bytes : List Nat)
  | callMkdirTemp (pre : String)
  | callWriteFile (path : GoPath) (bytes : List Nat) (perm : Nat)
  | callClose (path : GoPath)
  | callRemove (path : GoPath)
  | callRemoveAll (path : GoPath)
deriving DecidableEq, Repr

/-- A registered deferred call (argument already evaluated, as in Go). -/
inductive DeferOp where
  | dRemove (p : GoPath)
  | dClose (p : GoPath)
  | dRemoveAll (p : GoPath)
deriving DecidableEq, Repr

/-- How the run ends: normal return, or a panic raised by `check`. -/
inductive Outcome where
  | normal
  | panicked (msg : String)
deriving DecidableEq, Repr

/-- Failure oracle: which of the four checked OS calls returns a non-nil
error on this run. -/
structure Oracle where
  createTempFails : Bool
  writeFails : Bool
  mkdirTempFails : Bool
  writeFileFails : Bool
deriving DecidableEq, Repr

/-- The oracle of the successful run: every OS call succeeds. -/
def allFalseOracle : Oracle := ⟨false, false, false, false⟩

/-- Everything observable about one run of `main`. -/
structure RunResult where
  fsFinal : FS
  fsBeforeDefers : FS
  trace : List Action
  stdout : List String
  closeSnaps : List (GoPath × Option (List Nat))
  removedOpen : List GoPath
  outcome : Outcome
deriving Repr

/-- Execute the registered deferred calls (the list is kept in LIFO
order).  `snaps` records, at each `Close`, the content the file holds at
that moment; `ro` records every `Remove` attempted while the handle on
that path is still open. -/
def runDefers :
    List DeferOp → FS → List Action → List (GoPath × Option (List Nat)) →
      List GoPath → FS × List Action × List (GoPath × Option (List Nat)) × List GoPath
  | [], fs, tr, snaps, ro => (fs, tr, snaps, ro)
  | DeferOp.dRemove p :: ds, fs, tr, snaps, ro =>
      let ro2 := if fs.openHandles.contains p then ro ++ [p] else ro
      runDefers ds (osRemove p fs) (tr ++ [Action.callRemove p]) snaps ro2
  | DeferOp.dClose p :: ds, fs, tr, snaps, ro =>
      runDefers ds (osClose p fs) (tr ++ [Action.callClose p])
        (snaps ++ [(p, lookupFile p fs)]) ro
  | DeferOp.dRemoveAll p :: ds, fs, tr, snaps, ro =>
      runDefers ds (osRemoveAll p fs) (tr ++ [Action.callRemoveAll p]) snaps ro

/-- Leave `main`: run the defer stack, then report the outcome. -/
def finishRun (fs : FS) (tr : List Action) (out : List String)
    (ds : List DeferOp) (oc : Outcome) : RunResult :=
  match runDefers ds fs tr [] [] with
  | (fsF, trF, snaps, ro) =>
      { fsFinal := fsF
        fsBeforeDefers := fs
        trace := trF
        stdout := out
        closeSnaps := snaps
        removedOpen := ro
        outcome := oc }

/-- The embedding of `main`, line by line:
`f, err := os.CreateTemp("", "sample"); check(err)` —
`fmt.Println("Temp file name:", f.Name())` —
`defer os.Remove(f.Name())` — `defer f.Close()` —
`f.Write([]byte{1,2,3,4}); check(err)` —
`dname, err := os.MkdirTemp("", "sampledir"); check(err)` —
`fmt.Println("Temp dir name:", dname)` — `defer os.RemoveAll(dname)` —
`fname := filepath.Join(dname, "file1")` —
`os.WriteFile(fname, []byte{1,2}, 0666); check(err)`.
A failing `check` panics: the defers registered so far still run. -/
def runMain (o : Oracle) (fs0 : FS) : RunResult :=
  let tr0 := [Action.callCreateTemp "sample"]
  match o.createTempFails with
  | true => finishRun fs0 tr0 [] [] (Outcome.panicked "CreateTemp failed")
  | false =>
    match osCreateTemp "sample" fs0 with
    | (fpath, fs1) =>
      let line1 := "Temp file name: " ++ render fpath
      let tr1 := tr0 ++ [Action.callPrintln line1]
      let out1 := [line1]
      let ds1 := [DeferOp.dRemove fpath]
      let ds2 := DeferOp.dClose fpath :: ds1
      let tr2 := tr1 ++ [Action.callWrite [1, 2, 3, 4]]
      match o.writeFails with
      | true => finishRun fs1 tr2 out1 ds2 (Outcome.panicked "Write failed")
      | false =>
        let fs2 := fsWrite fpath [1, 2, 3, 4] fs1
        let tr3 := tr2 ++ [Action.callMkdirTemp "sampledir"]
        match o.mkdirTempFails with
        | true => finishRun fs2 tr3 out1 ds2 (Outcome.panicked "MkdirTemp failed")
        | false =>
          match osMkdirTemp "sampledir" fs2 with
          | (dpath, fs3) =>
            let line2 := "Temp dir name: " ++ render dpath
            let tr4 := tr3 ++ [Action.callPrintln line2]
            let out2 := out1 ++ [line2]
            let ds3 := DeferOp.dRemoveAll dpath :: ds2
            let fname := filepathJoin dpath "file1"
            let tr5 := tr4 ++ [Action.callWriteFile fname [1, 2] 0o666]
            match o.writeFileFails with
            | true => finishRun fs3 tr5 out2 ds3 (Outcome.panicked "WriteFile failed")
            | false =>
              let fs4 := osWriteFile fname [1, 2] fs3
              finishRun fs4 tr5 out2 ds3 Outcome.normal

/-- Is this a `Remove` call? -/
def isRemoveAct : Action → Bool
  | .callRemove _ => true
  | _ => false

/-- Is this a `RemoveAll` call? -/
def isRemoveAllAct : Action → Bool
  | .callRemoveAll _ => true
  | _ => false

/-- Is this a `Close` call? -/
def isCloseAct : Action → Bool
  | .callClose _ => true
  | _ => false

/-- Is this one of the three cleanup calls? -/
def isCleanupAct (a : Action) : Bool :=
  isRemoveAct a || isRemoveAllAct a || isCloseAct a

/-- Is this a `WriteFile` call? -/
def isWriteFileAct : Action → Bool
  | .callWriteFile _ _ _ => true
  | _ => false

/-- Position of the first action satisfying `p`. -/
def firstIdx (p : Action → Bool) : List Action → Option Nat
  | [] => none
  | a :: rest => if p a then some 0 else (firstIdx p rest).map (fun i => i + 1)

/-- The first `p`-action occurs strictly before the first `q`-action. -/
def precedes (p q : Action → Bool) (tr : List Action) : Bool :=
  match firstIdx p tr, firstIdx q tr with
  | some i, some j => decide (i < j)
  | _, _ => false

/-- C1's ordering as the claim states it: the temp file's removal occurs
strictly before the temp directory's recursive removal. -/
def removeBeforeRemoveAll (tr : List Action) : Bool :=
  precedes isRemoveAct isRemoveAllAct tr

/-- C2's property as the claim states it: both cleanup calls appear in the
run's trace. -/
def bothCleanupsPerformed (tr : List Action) : Bool :=
  tr.any isRemoveAct && tr.any isRemoveAllAct

/-- C1 counterexample: the claim's order is false on the successful run.
Go runs deferred calls in LIFO order, so `os.Remove(f.Name())` (deferred
first) runs last, after `os.RemoveAll(dname)` (deferred last): the
temporary file's removal does not occur before the directory's recursive
removal. -/
theorem claim_C1_counterexample :
    removeBeforeRemoveAll (runMain allFalseOracle initFS).trace = false := by
  decide

/-- C1 (amended): at program exit on the successful run, the deferred
cleanups execute in LIFO registration order: first the temporary directory
is recursively removed with its contents, then the temporary file's handle
is closed, and last the temporary file is removed. -/
theorem claim_C1_amended :
    (runMain allFalseOracle initFS).trace.filter isCleanupAct =
      [Action.callRemoveAll (GoPath.tmpEntry "sampledir" 1),
       Action.callClose (GoPath.tmpEntry "sample" 0),
       Action.callRemove (GoPath.tmpEntry "sample" 0)] := by
  decide

/-- C2 counterexample: on the exit path where `os.CreateTemp` itself fails
the panic fires before any `defer` is registered, so neither cleanup call
is performed — the claim's "both cleanup actions are performed on every
exit path" is false. -/
theorem claim_C2_counterexample :
    bothCleanupsPerformed (runMain ⟨true, false, false, false⟩ initFS).trace = false := by
  decide

/-- C2 (amended): on every exit path — normal return and every panic path —
the deferred cleanups registered before exit all run, so after the program
exits no filesystem entry created by the run still exists: no temp file, no
temp directory, nothing inside it, and no open handle remains; on the
successful run both the file removal and the recursive directory removal
do execute. -/
theorem claim_C2_amended :
    (∀ a b c d : Bool,
      (runMain ⟨a, b, c, d⟩ initFS).fsFinal.files = [] ∧
      (runMain ⟨a, b, c, d⟩ initFS).fsFinal.dirs = [] ∧
      (runMain ⟨a, b, c, d⟩ initFS).fsFinal.openHandles = []) ∧
    (runMain allFalseOracle initFS).trace.any isRemoveAct = true ∧
    (runMain allFalseOracle initFS).trace.any isRemoveAllAct = true := by
  refine ⟨?_, by decide, by decide⟩
  intro a b c d; cases a <;> cases b <;> cases c <;> cases d <;> decide

/-- C3: on every exit path that reaches the registration of both deferred
actions (every oracle on which `os.CreateTemp` succeeds), the handle's
`Close` occurs strictly before the temp file's `Remove` in the trace, and
no removal is ever attempted while the handle is still open. -/
theorem claim_C3 : ∀ b c d : Bool,
    precedes isCloseAct isRemoveAct (runMain ⟨false, b, c, d⟩ initFS).trace = true ∧
    (runMain ⟨false, b, c, d⟩ initFS).removedOpen = [] := by
  intro b c d; cases b <;> cases c <;> cases d <;> decide

/-- C4: on every run where the write to the temporary file succeeds, the
file contains exactly the four bytes 1, 2, 3, 4 in order and nothing else
at the moment its handle is closed. -/
theorem claim_C4 : ∀ c d : Bool,
    (runMain ⟨false, false, c, d⟩ initFS).closeSnaps =
      [(GoPath.tmpEntry "sample" 0, some [1, 2, 3, 4])] := by
  intro c d; cases c <;> cases d <;> decide

/-- C5: the second file is created at `filepath.Join dname "file1"`, and
when the write succeeds its content, in the filesystem state just before
the deferred cleanups run, is exactly the two bytes 1, 2. -/
theorem claim_C5 :
    lookupFile (filepathJoin (GoPath.tmpEntry "sampledir" 1) "file1")
      (runMain allFalseOracle initFS).fsBeforeDefers = some [1, 2] ∧
    (runMain allFalseOracle initFS).trace.any
      (fun a => a == Action.callWriteFile
        (filepathJoin (GoPath.tmpEntry "sampledir" 1) "file1") [1, 2] 0o666) = true := by
  constructor <;> decide

/-- C6: `check` panics with the error as diagnostic exactly when the error
is non-nil and lets execution continue when it is nil; at the program
level, the run ends normally exactly when none of the four checked OS
calls fails — any failure terminates the run (panic), with no recovery or
retry. -/
theorem claim_C6 :
    (∀ m : String, check (some m) = Except.error m) ∧
    check none = Except.ok () ∧
    (∀ e : Option String, check e = Except.ok () ↔ e = none) ∧
    (∀ a b c d : Bool,
      ((runMain ⟨a, b, c, d⟩ initFS).outcome = Outcome.normal ↔ (a || b || c || d) = false)) := by
  refine ⟨fun m => rfl, rfl, ?_, ?_⟩
  · intro e; cases e <;> simp [check]
  · intro a b c d; cases a <;> cases b <;> cases c <;> cases d <;> decide

/-- C7: whatever the initial filesystem state, the successful run prints
exactly two lines to standard output, in order: first the temporary file's
resolved path, then the temporary directory's path. -/
theorem claim_C7 : ∀ fs0 : FS,
    (runMain allFalseOracle fs0).stdout =
      ["Temp file name: " ++ render (GoPath.tmpEntry "sample" fs0.nextId),
       "Temp dir name: " ++ render (GoPath.tmpEntry "sampledir" (fs0.nextId + 1))] := by
  intro fs0; rfl

/-- C8: `os.CreateTemp("", "sample")` creates its file in the default
temporary location, the base name of the returned path starts with
"sample", and immediately after creation the path exists (as an empty
file) and has an open writable handle. -/
theorem claim_C8 : ∀ fs : FS,
    strStartsWith "sample" (baseName (osCreateTemp "sample" fs).1) ∧
    isTopTmp (osCreateTemp "sample" fs).1 = true ∧
    lookupFile (osCreateTemp "sample" fs).1 (osCreateTemp "sample" fs).2 = some [] ∧
    (osCreateTemp "sample" fs).1 ∈ (osCreateTemp "sample" fs).2.openHandles := by
  intro fs
  refine ⟨⟨Nat.repr fs.nextId, rfl⟩, rfl, ?_, ?_⟩
  · simp [osCreateTemp, lookupFile]
  · simp [osCreateTemp]

/-- C9: the OS name allocator hands out a fresh identifier per creation
call, so two invocations of the temp-file creation call (or of the
temp-dir creation call) — in either interleaving order, with any
requested name components — never return the same path. -/
theorem claim_C9 : ∀ (pre1 pre2 : String) (fs : FS),
    (osCreateTemp pre2 (osCreateTemp pre1 fs).2).1 ≠ (osCreateTemp pre1 fs).1 ∧
    (osMkdirTemp pre2 (osMkdirTemp pre1 fs).2).1 ≠ (osMkdirTemp pre1 fs).1 := by
  intro pre1 pre2 fs
  constructor <;> (intro h; simp only [osCreateTemp, osMkdirTemp, GoPath.tmpEntry.injEq] at h; omega)

/-- C10: every run that reaches the `os.WriteFile` call passes exactly
permission mode 0666 to it, and makes exactly one such call. -/
theorem claim_C10 : ∀ d : Bool,
    (runMain ⟨false, false, false, d⟩ initFS).trace.filter isWriteFileAct =
      [Action.callWriteFile (GoPath.sub (GoPath.tmpEntry "sampledir" 1) "file1") [1, 2] 0o666] := by
  intro d; cases d <;> decide

end TempFiles
